import Mathlib

/-!
Verification development for a hand-gesture patient-monitoring system.

The repository has two script variants:
* `gesture_fall_storke.py` — gesture recognition plus fall (body-absence)
  and stroke (mouth-asymmetry) detection, with a prioritized alert banner;
* `only_gesture.py` — gesture recognition only.

Each per-frame loop body is embedded as a pure step function over an
explicit state record.  Timestamps and landmark coordinates are rationals;
Python `math.ceil` is `Int.ceil`, Python `int()` is truncation toward zero,
and Python substring membership (`"EMERGENCY" in s`) is `strContains`.
-/

namespace Gesture

/-- A MediaPipe landmark; only `x` and `y` are consumed by the code. -/
structure Landmark where
  x : ℚ
  y : ℚ

/-- OpenCV colors are BGR triples. -/
abbrev Color := ℕ × ℕ × ℕ

/-- `(0, 255, 0)`, the green default. -/
def green : Color := (0, 255, 0)

/-- `(0, 0, 255)`, red for alerts. -/
def red : Color := (0, 0, 255)

/-- `BODY_MISSING_THRESHOLD = 5.0` — seconds the body must be gone. -/
def BODY_MISSING_THRESHOLD : ℚ := 5

/-- `FACE_ASYMMETRY_THRESHOLD = 0.03` — stroke-detection sensitivity. -/
def FACE_ASYMMETRY_THRESHOLD : ℚ := 3 / 100

/-- `GESTURE_HOLD_TIME = 3.0` — seconds a gesture must be held. -/
def GESTURE_HOLD_TIME : ℚ := 3

/-- Python `int()` applied to a rational: truncation toward zero. -/
def truncInt (q : ℚ) : ℤ :=
  if 0 ≤ q then ⌊q⌋ else -⌊-q⌋

/-- Helper for `strContains`: does `p` occur at the front of `l`? -/
def listStartsWith : List Char → List Char → Bool
  | [], _ => true
  | _ :: _, [] => false
  | a :: as, b :: bs => a = b && listStartsWith as bs

/-- Helper for `strContains`: does `pat` occur anywhere in `l`? -/
def containsAux (pat : List Char) : List Char → Bool
  | [] => listStartsWith pat []
  | c :: rest => listStartsWith pat (c :: rest) || containsAux pat rest

/-- Python substring membership `pat in s`. -/
def strContains (s pat : String) : Bool :=
  containsAux pat.data s.data

/-- A detected hand: its landmark sequence and its handedness label
(`"Left"` or `"Right"`), as delivered by MediaPipe. -/
structure HandObs where
  landmark : ℕ → Landmark
  label : String

/-- `get_fingers_status` (identical in both scripts): the 5-element
open/closed vector `[Thumb, Index, Middle, Ring, Pinky]`.  The thumb bit
compares tip and joint x-coordinates, mirrored by handedness; the four
finger bits compare tip and pip y-coordinates. -/
def get_fingers_status (lm : ℕ → Landmark) (label : String) : List ℕ :=
  let thumb : ℕ :=
    if label = "Left" then (if (lm 4).x < (lm 3).x then 1 else 0)
    else (if (lm 4).x > (lm 3).x then 1 else 0)
  thumb :: ([8, 12, 16, 20].map fun t => if (lm t).y < (lm (t - 2)).y then 1 else 0)

/-- `get_mouth_asymmetry` (gesture_fall_storke.py): landmark 61 is the left
mouth corner, 291 the right corner, 1 the nose tip. -/
def get_mouth_asymmetry (face_landmarks : ℕ → Landmark) : ℚ :=
  let left_mouth := face_landmarks 61
  let right_mouth := face_landmarks 291
  let nose := face_landmarks 1
  let left_rel := |left_mouth.y - nose.y|
  let right_rel := |right_mouth.y - nose.y|
  |left_rel - right_rel|

namespace GestureFallStroke

/-- `identify_gesture` of gesture_fall_storke.py: the 7-entry table. -/
def identify_gesture (f : List ℕ) : Option String :=
  if f = [1, 0, 0, 0, 0] then some "THUMB_EMERGENCY"
  else if f = [1, 1, 0, 0, 0] then some "Need Water/Food"
  else if f = [0, 1, 0, 0, 0] then some "Want Restroom"
  else if f = [0, 0, 1, 1, 1] then some "Want Medicine"
  else if f = [1, 0, 1, 1, 1] then some "Adjust Position"
  else if f = [0, 1, 1, 0, 0] then some "Call Caregiver"
  else if f = [1, 1, 1, 0, 0] then some "Uncomfortable"
  else none

/-- The persistent (module-level) state of gesture_fall_storke.py. -/
structure SysState where
  body_missing_start : Option ℚ
  fall_alert_active : Bool
  current_gesture : Option String
  gesture_start_time : ℚ
  confirmed_text : String

/-- The gesture-module fields of `SysState`, threaded through `moduleC`. -/
structure GState where
  current_gesture : Option String
  gesture_start_time : ℚ
  confirmed_text : String

/-- The confirmed status text written on confirmation of gesture `g`
(lines 166-171): the thumb-only emergency gesture is rendered as
`"EMERGENCY: THUMB TRIGGERED"`, every other label verbatim. -/
def confirmText (g : String) : String :=
  if g = "THUMB_EMERGENCY" then "EMERGENCY: THUMB TRIGGERED" else g

/-- MODULE A: fall detection (lines 109-123).  Inputs: the persistent
`(body_missing_start, fall_alert_active)` pair, the current time and the
body-present flag; at this point of the frame `top_alert_text = ""` and
`status_color` is green.  Returns the new persistent pair together with
`(top_alert_text, status_color, searching text drawn)`. -/
def moduleA (bms : Option ℚ) (faa : Bool) (now : ℚ) (poseDetected : Bool) :
    (Option ℚ × Bool) × (String × Color × Option String) :=
  if poseDetected then ((none, false), ("", green, none))
  else
    let start := bms.getD now
    let elapsed := now - start
    if elapsed > BODY_MISSING_THRESHOLD then
      ((some start, true), ("FALL DETECTED / PATIENT MISSING", red, none))
    else
      ((some start, faa),
        ("", green,
          some ("Searching Body: " ++
            toString (truncInt (BODY_MISSING_THRESHOLD - elapsed)) ++ "s")))

/-- MODULE B: stroke detection (lines 128-137).  Takes the banner text and
status color left by module A and the optional face landmarks; fires only
when the banner slot is still empty. -/
def moduleB (top1 : String) (color1 : Color) (face : Option (ℕ → Landmark)) :
    String × Color :=
  match face with
  | none => (top1, color1)
  | some lm =>
    if get_mouth_asymmetry lm > FACE_ASYMMETRY_THRESHOLD then
      (if top1 = "" then ("POSSIBLE STROKE DETECTED", red) else (top1, color1))
    else (top1, color1)

/-- MODULE C: gesture recognition (lines 147-193).  Takes the gesture
state, the status color left by modules A and B, the optional detected
hand and the current time; returns the new gesture state, the status
color and the countdown text (`""` when none is drawn). -/
def moduleC (g : GState) (color : Color) (hand : Option HandObs) (now : ℚ) :
    GState × Color × String :=
  match hand with
  | none => ({ g with current_gesture := none }, color, "")
  | some h =>
    let fingers := get_fingers_status h.landmark h.label
    match identify_gesture fingers with
    | none => ({ g with current_gesture := none }, color, "")
    | some gesture =>
      if some gesture = g.current_gesture then
        let hold_duration := now - g.gesture_start_time
        let seconds_left := ⌈GESTURE_HOLD_TIME - hold_duration⌉
        if hold_duration > GESTURE_HOLD_TIME then
          if gesture = "THUMB_EMERGENCY" then
            ({ g with confirmed_text := "EMERGENCY: THUMB TRIGGERED" }, red, "")
          else
            ({ g with confirmed_text := gesture },
              (if strContains gesture "EMERGENCY" then color else green), "")
        else
          (g, color, "Holding: " ++ toString seconds_left ++ "s")
      else
        ({ g with current_gesture := some gesture, gesture_start_time := now }, color, "")

/-- What one frame draws (final display composition, lines 199-211). -/
structure Display where
  top_alert_text : String
  searching_text : Option String
  countdown_text : String
  status_text : String
  display_color : Color

/-- One full iteration of the main loop of gesture_fall_storke.py:
modules A, B, C in source order, then the final display composition
(`display_color` forced red when `confirmed_text` contains
`"EMERGENCY"`). -/
def frameStep (st : SysState) (now : ℚ) (poseDetected : Bool)
    (face : Option (ℕ → Landmark)) (hand : Option HandObs) :
    SysState × Display :=
  let a := moduleA st.body_missing_start st.fall_alert_active now poseDetected
  let b := moduleB a.2.1 a.2.2.1 face
  let c := moduleC ⟨st.current_gesture, st.gesture_start_time, st.confirmed_text⟩ b.2 hand now
  let display_color := if strContains c.1.confirmed_text "EMERGENCY" then red else c.2.1
  (⟨a.1.1, a.1.2, c.1.current_gesture, c.1.gesture_start_time, c.1.confirmed_text⟩,
    { top_alert_text := b.1
      searching_text := a.2.2.2
      countdown_text := c.2.2
      status_text := "Status: " ++ c.1.confirmed_text
      display_color := display_color })

/-- Folding module A over a sequence of timestamps at which the body is
absent, keeping only the persistent `(body_missing_start, fall_alert_active)`
pair. -/
def runPresence (p : Option ℚ × Bool) (ts : List ℚ) : Option ℚ × Bool :=
  ts.foldl (fun s t => (moduleA s.1 s.2 t false).1) p

/-- Folding module C over a list of `(timestamp, hand observation)` frames,
keeping the gesture state and the status color. -/
def runModC (p : GState × Color) (frames : List (ℚ × Option HandObs)) :
    GState × Color :=
  frames.foldl (fun s fr => ((moduleC s.1 s.2 fr.2 fr.1).1, (moduleC s.1 s.2 fr.2 fr.1).2.1)) p

end GestureFallStroke

namespace OnlyGesture

/-- `identify_gesture` of only_gesture.py: the modified 6-entry table
(`[1,0,0,0,0]` remapped to "Adjust Position", `[1,0,1,1,1]` absent). -/
def identify_gesture (f : List ℕ) : Option String :=
  if f = [1, 0, 0, 0, 0] then some "Adjust Position"
  else if f = [1, 1, 0, 0, 0] then some "Need Water/Food"
  else if f = [0, 1, 0, 0, 0] then some "Want Restroom"
  else if f = [0, 0, 1, 1, 1] then some "Want Medicine"
  else if f = [0, 1, 1, 0, 0] then some "Call Caregiver"
  else if f = [1, 1, 1, 0, 0] then some "Uncomfortable"
  else none

/-- The persistent (module-level) state of only_gesture.py.  Unlike the
other variant, `status_color` here is persistent across frames. -/
structure OGState where
  current_gesture : Option String
  gesture_start_time : ℚ
  confirmed_text : String
  status_color : Color

/-- One iteration of the gesture block of only_gesture.py (lines 87-129).
Returns the new state and the countdown text (`""` when none is drawn). -/
def step (st : OGState) (hand : Option HandObs) (now : ℚ) : OGState × String :=
  match hand with
  | none => ({ st with current_gesture := none }, "")
  | some h =>
    let fingers := get_fingers_status h.landmark h.label
    match identify_gesture fingers with
    | none => ({ st with current_gesture := none }, "")
    | some gesture =>
      if some gesture = st.current_gesture then
        let hold_duration := now - st.gesture_start_time
        let seconds_left := ⌈GESTURE_HOLD_TIME - hold_duration⌉
        if hold_duration > GESTURE_HOLD_TIME then
          ({ st with confirmed_text := gesture, status_color := green }, "")
        else
          (st, "Holding: " ++ toString seconds_left ++ "s")
      else
        ({ st with current_gesture := some gesture, gesture_start_time := now }, "")

/-- Folding `step` over a list of `(timestamp, hand observation)` frames. -/
def run (st : OGState) (frames : List (ℚ × Option HandObs)) : OGState :=
  frames.foldl (fun s fr => (step s fr.2 fr.1).1) st

end OnlyGesture

/-- The gesture label the frame observes from a hand, gesture_fall_storke
variant: classifier applied to the derived finger vector. -/
def observedGFS (h : HandObs) : Option String :=
  GestureFallStroke.identify_gesture (get_fingers_status h.landmark h.label)

/-- The gesture label the frame observes from a hand, only_gesture
variant. -/
def observedOG (h : HandObs) : Option String :=
  OnlyGesture.identify_gesture (get_fingers_status h.landmark h.label)

/-- A concrete hand whose finger vector is `[1,0,0,0,0]` (thumb only)
under handedness `"Right"`: thumb tip right of its joint, all finger tips
below their pip joints. -/
def thumbHand : HandObs :=
  { landmark := fun i => if i = 4 then ⟨1, 0⟩ else ⟨0, 0⟩
    label := "Right" }

/-- A concrete hand whose finger vector is `[1,1,0,0,0]` under handedness
`"Right"`. -/
def waterHand : HandObs :=
  { landmark := fun i => if i = 4 then ⟨1, 0⟩ else if i = 8 then ⟨0, 0⟩ else ⟨0, 1⟩
    label := "Right" }

/-- A concrete hand matching no table entry (all fingers closed). -/
def fistHand : HandObs :=
  { landmark := fun _ => ⟨0, 0⟩
    label := "Right" }

namespace GestureFallStroke

lemma moduleA_present (bms : Option ℚ) (faa : Bool) (now : ℚ) :
    moduleA bms faa now true = ((none, false), ("", green, none)) := rfl

lemma moduleA_absent_first (a : Bool) (now : ℚ) :
    moduleA none a now false =
      ((some now, a),
        ("", green, some ("Searching Body: " ++ toString (truncInt BODY_MISSING_THRESHOLD) ++ "s"))) := by
  unfold moduleA
  norm_num [BODY_MISSING_THRESHOLD]

lemma moduleA_absent_over {s now : ℚ} (a : Bool)
    (h : now - s > BODY_MISSING_THRESHOLD) :
    moduleA (some s) a now false =
      ((some s, true), ("FALL DETECTED / PATIENT MISSING", red, none)) := by
  simp [moduleA, h]

lemma moduleA_absent_under {s now : ℚ} (a : Bool)
    (h : ¬ now - s > BODY_MISSING_THRESHOLD) :
    moduleA (some s) a now false =
      ((some s, a),
        ("", green,
          some ("Searching Body: " ++
            toString (truncInt (BODY_MISSING_THRESHOLD - (now - s))) ++ "s"))) := by
  simp [moduleA, h]

lemma moduleA_absent_fst (s : ℚ) (a : Bool) (t : ℚ) :
    (moduleA (some s) a t false).1 =
      (some s, a || decide (t - s > BODY_MISSING_THRESHOLD)) := by
  by_cases h : t - s > BODY_MISSING_THRESHOLD <;> simp [moduleA, h]

lemma runPresence_absent (s : ℚ) (a : Bool) (ts : List ℚ) :
    runPresence (some s, a) ts =
      (some s, a || ts.any fun t => decide (t - s > BODY_MISSING_THRESHOLD)) := by
  induction ts generalizing a with
  | nil => simp [runPresence]
  | cons t ts ih =>
    have hstep : runPresence (some s, a) (t :: ts) =
        runPresence ((moduleA (some s) a t false).1) ts := rfl
    rw [hstep, moduleA_absent_fst, ih]
    simp [Bool.or_assoc]

lemma moduleC_noHand (g : GState) (color : Color) (now : ℚ) :
    moduleC g color none now = ({ g with current_gesture := none }, color, "") := rfl

lemma moduleC_noneGesture {h : HandObs} (g : GState) (color : Color) (now : ℚ)
    (hg : observedGFS h = none) :
    moduleC g color (some h) now = ({ g with current_gesture := none }, color, "") := by
  have hg' : identify_gesture (get_fingers_status h.landmark h.label) = none := hg
  simp only [moduleC, hg']

lemma moduleC_switch {h : HandObs} {M : String} (g : GState) (color : Color) (now : ℚ)
    (hg : observedGFS h = some M) (hne : g.current_gesture ≠ some M) :
    moduleC g color (some h) now =
      ({ g with current_gesture := some M, gesture_start_time := now }, color, "") := by
  have hg' : identify_gesture (get_fingers_status h.landmark h.label) = some M := hg
  simp only [moduleC, hg']
  rw [if_neg (fun he => hne he.symm)]

lemma moduleC_hold {h : HandObs} {L : String} (g : GState) (color : Color) (now : ℚ)
    (hg : observedGFS h = some L) (hc : g.current_gesture = some L)
    (ht : ¬ now - g.gesture_start_time > GESTURE_HOLD_TIME) :
    moduleC g color (some h) now =
      (g, color,
        "Holding: " ++ toString ⌈GESTURE_HOLD_TIME - (now - g.gesture_start_time)⌉ ++ "s") := by
  have hg' : identify_gesture (get_fingers_status h.landmark h.label) = some L := hg
  simp only [moduleC, hg']
  rw [if_pos hc.symm, if_neg ht]

lemma moduleC_confirm {h : HandObs} {L : String} (g : GState) (color : Color) (now : ℚ)
    (hg : observedGFS h = some L) (hc : g.current_gesture = some L)
    (ht : now - g.gesture_start_time > GESTURE_HOLD_TIME) :
    moduleC g color (some h) now =
      ({ g with confirmed_text := confirmText L },
        (if L = "THUMB_EMERGENCY" then red
          else if strContains L "EMERGENCY" then color else green), "") := by
  have hg' : identify_gesture (get_fingers_status h.landmark h.label) = some L := hg
  simp only [moduleC, hg']
  rw [if_pos hc.symm, if_pos ht]
  by_cases hL : L = "THUMB_EMERGENCY" <;> simp [hL, confirmText]

lemma runModC_hold {h : HandObs} {L : String} (g : GState) (color : Color) (ts : List ℚ)
    (hg : observedGFS h = some L) (hc : g.current_gesture = some L)
    (hts : ∀ t ∈ ts, ¬ t - g.gesture_start_time > GESTURE_HOLD_TIME) :
    runModC (g, color) (ts.map fun t => (t, some h)) = (g, color) := by
  induction ts with
  | nil => rfl
  | cons t ts ih =>
    have hstep : runModC (g, color) ((t :: ts).map fun t => (t, some h)) =
        runModC ((moduleC g color (some h) t).1, (moduleC g color (some h) t).2.1)
          (ts.map fun t => (t, some h)) := rfl
    rw [hstep, moduleC_hold g color t hg hc (hts t (List.mem_cons_self t ts))]
    exact ih fun u hu => hts u (List.mem_cons_of_mem t hu)

lemma runModC_confirmed_sticky {h : HandObs} {L : String}
    (p : GState × Color) (ts : List ℚ)
    (hg : observedGFS h = some L) (hc : p.1.current_gesture = some L)
    (hcf : p.1.confirmed_text = confirmText L) :
    (runModC p (ts.map fun t => (t, some h))).1.current_gesture = some L ∧
      (runModC p (ts.map fun t => (t, some h))).1.confirmed_text = confirmText L := by
  induction ts generalizing p with
  | nil => exact ⟨hc, hcf⟩
  | cons t ts ih =>
    have hstep : runModC p ((t :: ts).map fun t => (t, some h)) =
        runModC ((moduleC p.1 p.2 (some h) t).1, (moduleC p.1 p.2 (some h) t).2.1)
          (ts.map fun t => (t, some h)) := rfl
    rw [hstep]
    by_cases ht : t - p.1.gesture_start_time > GESTURE_HOLD_TIME
    · rw [moduleC_confirm p.1 p.2 t hg hc ht]
      exact ih ⟨_, _⟩ hc rfl
    · rw [moduleC_hold p.1 p.2 t hg hc ht]
      exact ih ⟨_, _⟩ hc hcf

lemma runModC_idle (p : GState × Color) (frames : List (ℚ × Option HandObs))
    (hframes : ∀ fr ∈ frames, fr.2 = none ∨ ∃ h, fr.2 = some h ∧ observedGFS h = none) :
    (runModC p frames).1.confirmed_text = p.1.confirmed_text := by
  induction frames generalizing p with
  | nil => rfl
  | cons fr frames ih =>
    have hstep : runModC p (fr :: frames) =
        runModC ((moduleC p.1 p.2 fr.2 fr.1).1, (moduleC p.1 p.2 fr.2 fr.1).2.1) frames := rfl
    rw [hstep]
    rcases hframes fr (List.mem_cons_self fr frames) with hnone | ⟨h, hh, hg⟩
    · rw [hnone, moduleC_noHand]
      exact ih _ fun u hu => hframes u (List.mem_cons_of_mem fr hu)
    · rw [hh, moduleC_noneGesture p.1 p.2 fr.1 hg]
      exact ih _ fun u hu => hframes u (List.mem_cons_of_mem fr hu)

lemma moduleC_confirmed_change (g : GState) (color : Color)
    (hand : Option HandObs) (now : ℚ)
    (hch : (moduleC g color hand now).1.confirmed_text ≠ g.confirmed_text) :
    ∃ h L, hand = some h ∧ observedGFS h = some L ∧ g.current_gesture = some L ∧
      now - g.gesture_start_time > GESTURE_HOLD_TIME ∧
      (moduleC g color hand now).1.confirmed_text = confirmText L := by
  match hand with
  | none => exact absurd rfl hch
  | some h =>
    rcases e : observedGFS h with _ | gesture
    · rw [moduleC_noneGesture g color now e] at hch ⊢
      exact absurd rfl hch
    · by_cases hc : g.current_gesture = some gesture
      · by_cases ht : now - g.gesture_start_time > GESTURE_HOLD_TIME
        · rw [moduleC_confirm g color now e hc ht] at hch ⊢
          exact ⟨h, gesture, rfl, e, hc, ht, rfl⟩
        · rw [moduleC_hold g color now e hc ht] at hch
          exact absurd rfl hch
      · rw [moduleC_switch g color now e hc] at hch
        exact absurd rfl hch

end GestureFallStroke

namespace OnlyGesture

lemma step_noHand (st : OGState) (now : ℚ) :
    step st none now = ({ st with current_gesture := none }, "") := rfl

lemma step_noneGesture {h : HandObs} (st : OGState) (now : ℚ)
    (hg : observedOG h = none) :
    step st (some h) now = ({ st with current_gesture := none }, "") := by
  have hg' : identify_gesture (get_fingers_status h.landmark h.label) = none := hg
  simp only [step, hg']

lemma step_switch {h : HandObs} {M : String} (st : OGState) (now : ℚ)
    (hg : observedOG h = some M) (hne : st.current_gesture ≠ some M) :
    step st (some h) now =
      ({ st with current_gesture := some M, gesture_start_time := now }, "") := by
  have hg' : identify_gesture (get_fingers_status h.landmark h.label) = some M := hg
  simp only [step, hg']
  rw [if_neg (fun he => hne he.symm)]

lemma step_hold {h : HandObs} {L : String} (st : OGState) (now : ℚ)
    (hg : observedOG h = some L) (hc : st.current_gesture = some L)
    (ht : ¬ now - st.gesture_start_time > GESTURE_HOLD_TIME) :
    step st (some h) now =
      (st, "Holding: " ++ toString ⌈GESTURE_HOLD_TIME - (now - st.gesture_start_time)⌉ ++ "s") := by
  have hg' : identify_gesture (get_fingers_status h.landmark h.label) = some L := hg
  simp only [step, hg']
  rw [if_pos hc.symm, if_neg ht]

lemma step_confirm {h : HandObs} {L : String} (st : OGState) (now : ℚ)
    (hg : observedOG h = some L) (hc : st.current_gesture = some L)
    (ht : now - st.gesture_start_time > GESTURE_HOLD_TIME) :
    step st (some h) now =
      ({ st with confirmed_text := L, status_color := green }, "") := by
  have hg' : identify_gesture (get_fingers_status h.landmark h.label) = some L := hg
  simp only [step, hg']
  rw [if_pos hc.symm, if_pos ht]

lemma run_hold {h : HandObs} {L : String} (st : OGState) (ts : List ℚ)
    (hg : observedOG h = some L) (hc : st.current_gesture = some L)
    (hts : ∀ t ∈ ts, ¬ t - st.gesture_start_time > GESTURE_HOLD_TIME) :
    run st (ts.map fun t => (t, some h)) = st := by
  induction ts with
  | nil => rfl
  | cons t ts ih =>
    have hstep : run st ((t :: ts).map fun t => (t, some h)) =
        run (step st (some h) t).1 (ts.map fun t => (t, some h)) := rfl
    rw [hstep, step_hold st t hg hc (hts t (List.mem_cons_self t ts))]
    exact ih fun u hu => hts u (List.mem_cons_of_mem t hu)

lemma run_confirmed_sticky {h : HandObs} {L : String} (st : OGState) (ts : List ℚ)
    (hg : observedOG h = some L) (hc : st.current_gesture = some L)
    (hcf : st.confirmed_text = L) :
    (run st (ts.map fun t => (t, some h))).current_gesture = some L ∧
      (run st (ts.map fun t => (t, some h))).confirmed_text = L := by
  induction ts generalizing st with
  | nil => exact ⟨hc, hcf⟩
  | cons t ts ih =>
    have hstep : run st ((t :: ts).map fun t => (t, some h)) =
        run (step st (some h) t).1 (ts.map fun t => (t, some h)) := rfl
    rw [hstep]
    by_cases ht : t - st.gesture_start_time > GESTURE_HOLD_TIME
    · rw [step_confirm st t hg hc ht]
      exact ih _ hc rfl
    · rw [step_hold st t hg hc ht]
      exact ih _ hc hcf

lemma run_idle (st : OGState) (frames : List (ℚ × Option HandObs))
    (hframes : ∀ fr ∈ frames, fr.2 = none ∨ ∃ h, fr.2 = some h ∧ observedOG h = none) :
    (run st frames).confirmed_text = st.confirmed_text ∧
      (run st frames).gesture_start_time = st.gesture_start_time := by
  induction frames generalizing st with
  | nil => exact ⟨rfl, rfl⟩
  | cons fr frames ih =>
    have hstep : run st (fr :: frames) = run (step st fr.2 fr.1).1 frames := rfl
    rw [hstep]
    rcases hframes fr (List.mem_cons_self fr frames) with hnone | ⟨h, hh, hg⟩
    · rw [hnone, step_noHand]
      exact ih _ fun u hu => hframes u (List.mem_cons_of_mem fr hu)
    · rw [hh, step_noneGesture st fr.1 hg]
      exact ih _ fun u hu => hframes u (List.mem_cons_of_mem fr hu)

lemma step_confirmed_change (st : OGState) (hand : Option HandObs) (now : ℚ)
    (hch : (step st hand now).1.confirmed_text ≠ st.confirmed_text) :
    ∃ h L, hand = some h ∧ observedOG h = some L ∧ st.current_gesture = some L ∧
      now - st.gesture_start_time > GESTURE_HOLD_TIME ∧
      (step st hand now).1.confirmed_text = L := by
  match hand with
  | none => exact absurd rfl hch
  | some h =>
    rcases e : observedOG h with _ | gesture
    · rw [step_noneGesture st now e] at hch ⊢
      exact absurd rfl hch
    · by_cases hc : st.current_gesture = some gesture
      · by_cases ht : now - st.gesture_start_time > GESTURE_HOLD_TIME
        · rw [step_confirm st now e hc ht] at hch ⊢
          exact ⟨h, gesture, rfl, e, hc, ht, rfl⟩
        · rw [step_hold st now e hc ht] at hch
          exact absurd rfl hch
      · rw [step_switch st now e hc] at hch
        exact absurd rfl hch

end OnlyGesture

example : strContains "EMERGENCY: THUMB TRIGGERED" "EMERGENCY" = true := by decide
example : strContains "Monitoring Active" "EMERGENCY" = false := by decide
example : truncInt ((5 : ℚ) - 2) = 3 := by norm_num [truncInt]
example : ⌈(3 : ℚ) - 1⌉ = 2 := by norm_num
example : ((6 : ℚ) - 0 > 5) := by norm_num
example : toString (2 : ℤ) = "2" := by decide
example : GestureFallStroke.identify_gesture [1, 0, 1, 1, 1] = some "Adjust Position" := by decide
example : OnlyGesture.identify_gesture [1, 0, 1, 1, 1] = none := by decide
example : get_fingers_status thumbHand.landmark thumbHand.label = [1, 0, 0, 0, 0] := by
  norm_num [get_fingers_status, thumbHand] <;> decide
example : observedGFS thumbHand = some "THUMB_EMERGENCY" := by
  norm_num [observedGFS, get_fingers_status, thumbHand, GestureFallStroke.identify_gesture] <;> decide
example : observedOG thumbHand = some "Adjust Position" := by
  norm_num [observedOG, get_fingers_status, thumbHand, OnlyGesture.identify_gesture] <;> decide
example : observedGFS waterHand = some "Need Water/Food" := by
  norm_num [observedGFS, get_fingers_status, waterHand, GestureFallStroke.identify_gesture] <;> decide
example : observedGFS fistHand = none := by
  norm_num [observedGFS, get_fingers_status, fistHand, GestureFallStroke.identify_gesture] <;> decide
example : observedOG fistHand = none := by
  norm_num [observedOG, get_fingers_status, fistHand, OnlyGesture.identify_gesture] <;> decide

open GestureFallStroke

/-- `1` for an open finger, `0` for a closed one. -/
def bit (b : Bool) : ℕ := if b then 1 else 0

/-- The finger vector encoded by five booleans; ranging over all five
booleans ranges over all 32 possible finger vectors. -/
def fingerVec (a b c d e : Bool) : List ℕ := [bit a, bit b, bit c, bit d, bit e]

/-- The 7 enumerated gesture labels of the repository plus NONE. -/
def allLabels : List (Option String) :=
  [none, some "THUMB_EMERGENCY", some "Need Water/Food", some "Want Restroom",
    some "Want Medicine", some "Adjust Position", some "Call Caregiver",
    some "Uncomfortable"]

/-- The 7 patterns of the gesture_fall_storke.py table. -/
def gfsPatterns : List (List ℕ) :=
  [[1, 0, 0, 0, 0], [1, 1, 0, 0, 0], [0, 1, 0, 0, 0], [0, 0, 1, 1, 1],
    [1, 0, 1, 1, 1], [0, 1, 1, 0, 0], [1, 1, 1, 0, 0]]

/-- The 6 patterns of the only_gesture.py table. -/
def ogPatterns : List (List ℕ) :=
  [[1, 0, 0, 0, 0], [1, 1, 0, 0, 0], [0, 1, 0, 0, 0], [0, 0, 1, 1, 1],
    [0, 1, 1, 0, 0], [1, 1, 1, 0, 0]]

/-- C3: for every one of the 32 possible 5-element finger vectors, each
variant's `identify_gesture` returns exactly one result that is either one
of the 7 enumerated gesture labels or NONE (it is a total pure function,
hence deterministic and side-effect free), and any vector matching no
table pattern yields NONE rather than an error. -/
theorem C3_classifier_total : ∀ a b c d e : Bool,
    (GestureFallStroke.identify_gesture (fingerVec a b c d e) ∈ allLabels) ∧
    (OnlyGesture.identify_gesture (fingerVec a b c d e) ∈ allLabels) ∧
    (fingerVec a b c d e ∈ gfsPatterns ∨
      GestureFallStroke.identify_gesture (fingerVec a b c d e) = none) ∧
    (fingerVec a b c d e ∈ ogPatterns ∨
      OnlyGesture.identify_gesture (fingerVec a b c d e) = none) := by decide

/-- C9: for every facial landmark set, `get_mouth_asymmetry` returns
exactly `abs (abs (left.y - nose.y) - abs (right.y - nose.y))` — with the
left mouth corner at index 61, the right at 291 and the nose tip at 1 —
and the result is always non-negative. -/
theorem C9_asymmetry_scorer : ∀ lm : ℕ → Landmark,
    get_mouth_asymmetry lm =
      abs (abs ((lm 61).y - (lm 1).y) - abs ((lm 291).y - (lm 1).y)) ∧
    0 ≤ get_mouth_asymmetry lm :=
  fun lm => ⟨rfl, abs_nonneg _⟩

/-- C10: noninterference of the hand side on classification.  The
handedness label influences only the thumb bit of the finger vector (the
tail of `get_fingers_status` is the same for any two labels), and both
variants' `identify_gesture` consume only the finger vector, so two runs
that differ in hand side but agree on the finger vector produce the same
gesture label. -/
theorem C10_side_noninterference :
    (∀ (lm : ℕ → Landmark) (l l' : String),
      (get_fingers_status lm l).tail = (get_fingers_status lm l').tail) ∧
    (∀ h h' : HandObs,
      get_fingers_status h.landmark h.label = get_fingers_status h'.landmark h'.label →
      observedGFS h = observedGFS h' ∧ observedOG h = observedOG h') := by
  refine ⟨fun lm l l' => rfl, fun h h' hf => ⟨?_, ?_⟩⟩
  · unfold observedGFS
    rw [hf]
  · unfold observedOG
    rw [hf]

/-- A fist with handedness `"Left"`, for the C10 witness: the finger
vector agrees with `fistHand` although the side differs. -/
def fistHandL : HandObs :=
  { landmark := fun _ => ⟨0, 0⟩
    label := "Left" }

/-- C10 witness: concrete hands differing only in side with equal finger
vectors classify identically. -/
theorem C10_witness :
    get_fingers_status fistHand.landmark fistHand.label =
      get_fingers_status fistHandL.landmark fistHandL.label ∧
    observedGFS fistHand = observedGFS fistHandL := by
  have h1 : get_fingers_status fistHand.landmark fistHand.label = [0, 0, 0, 0, 0] := by
    norm_num [get_fingers_status, fistHand]
  have h2 : get_fingers_status fistHandL.landmark fistHandL.label = [0, 0, 0, 0, 0] := by
    norm_num [get_fingers_status, fistHandL]
  have hv := h1.trans h2.symm
  exact ⟨hv, (C10_side_noninterference.2 fistHand fistHandL hv).1⟩

/-- C7 counterexample: the two tables do not agree on every vector other
than the thumb-only pattern — they also differ on `[1,0,1,1,1]`, which
gesture_fall_storke.py maps to "Adjust Position" and only_gesture.py
leaves unmatched (NONE). -/
theorem C7_counterexample :
    ([1, 0, 1, 1, 1] : List ℕ) ≠ [1, 0, 0, 0, 0] ∧
    GestureFallStroke.identify_gesture [1, 0, 1, 1, 1] = some "Adjust Position" ∧
    OnlyGesture.identify_gesture [1, 0, 1, 1, 1] = none := by decide

/-- C7 (amended): the two variants' tables agree on every 5-element finger
vector except the thumb-only pattern `[1,0,0,0,0]` (emergency in one
variant, "Adjust Position" in the other) and the pattern `[1,0,1,1,1]`
("Adjust Position" in one variant, NONE in the other). -/
theorem C7_tables_agree_amended : ∀ a b c d e : Bool,
    fingerVec a b c d e ≠ [1, 0, 0, 0, 0] →
    fingerVec a b c d e ≠ [1, 0, 1, 1, 1] →
    GestureFallStroke.identify_gesture (fingerVec a b c d e) =
      OnlyGesture.identify_gesture (fingerVec a b c d e) := by decide

lemma observedOG_thumbHand : observedOG thumbHand = some "Adjust Position" := by
  norm_num [observedOG, get_fingers_status, thumbHand, OnlyGesture.identify_gesture] <;> decide

lemma observedGFS_thumbHand : observedGFS thumbHand = some "THUMB_EMERGENCY" := by
  norm_num [observedGFS, get_fingers_status, thumbHand, GestureFallStroke.identify_gesture] <;> decide

lemma observedOG_fistHand : observedOG fistHand = none := by
  norm_num [observedOG, get_fingers_status, fistHand, OnlyGesture.identify_gesture] <;> decide

/-- A hold-in-progress state of the only_gesture.py variant: the label
"Adjust Position" has been held since time 0 and nothing is confirmed. -/
def ogHoldState : OnlyGesture.OGState :=
  ⟨some "Adjust Position", 0, "Monitoring Active", green⟩

/-- A state of the only_gesture.py variant in which "Adjust Position" has
already been confirmed and is still the held gesture. -/
def ogConfirmedState : OnlyGesture.OGState :=
  ⟨some "Adjust Position", 0, "Adjust Position", green⟩

/-- C1: the `GestureHoldTracker`, for both script variants.  While label
`L` is held and every observed frame's elapsed time is strictly below
`GESTURE_HOLD_TIME`, the state is unchanged — in particular the confirmed
label is never set to `L`; a frame whose elapsed time strictly exceeds the
threshold sets the confirmed label to `L` (rendered through `confirmText`
in the gesture_fall_storke variant) and keeps holding `L`, and every
subsequent frame observing `L` keeps the confirmed label at `L`
(re-confirming is idempotent); observing a different label `M` makes `M`
the held label, resets the hold start to `now`, and leaves the confirmed
label untouched, so no confirmation of `L` occurs. -/
theorem C1_gesture_hold_tracker :
    (∀ (st : OnlyGesture.OGState) (h : HandObs) (L : String) (ts : List ℚ),
      observedOG h = some L → st.current_gesture = some L →
      (∀ t ∈ ts, t - st.gesture_start_time < GESTURE_HOLD_TIME) →
      OnlyGesture.run st (ts.map fun t => (t, some h)) = st) ∧
    (∀ (st : OnlyGesture.OGState) (h : HandObs) (L : String) (now : ℚ),
      observedOG h = some L → st.current_gesture = some L →
      now - st.gesture_start_time > GESTURE_HOLD_TIME →
      (OnlyGesture.step st (some h) now).1.confirmed_text = L ∧
      (OnlyGesture.step st (some h) now).1.current_gesture = some L) ∧
    (∀ (st : OnlyGesture.OGState) (h : HandObs) (L : String) (ts : List ℚ),
      observedOG h = some L → st.current_gesture = some L → st.confirmed_text = L →
      (OnlyGesture.run st (ts.map fun t => (t, some h))).confirmed_text = L) ∧
    (∀ (st : OnlyGesture.OGState) (h : HandObs) (L M : String) (now : ℚ),
      observedOG h = some M → st.current_gesture = some L → M ≠ L →
      (OnlyGesture.step st (some h) now).1.current_gesture = some M ∧
      (OnlyGesture.step st (some h) now).1.gesture_start_time = now ∧
      (OnlyGesture.step st (some h) now).1.confirmed_text = st.confirmed_text) ∧
    (∀ (g : GState) (color : Color) (h : HandObs) (L : String) (ts : List ℚ),
      observedGFS h = some L → g.current_gesture = some L →
      (∀ t ∈ ts, t - g.gesture_start_time < GESTURE_HOLD_TIME) →
      runModC (g, color) (ts.map fun t => (t, some h)) = (g, color)) ∧
    (∀ (g : GState) (color : Color) (h : HandObs) (L : String) (now : ℚ),
      observedGFS h = some L → g.current_gesture = some L →
      now - g.gesture_start_time > GESTURE_HOLD_TIME →
      (moduleC g color (some h) now).1.confirmed_text = confirmText L ∧
      (moduleC g color (some h) now).1.current_gesture = some L) ∧
    (∀ (g : GState) (color : Color) (h : HandObs) (L : String) (ts : List ℚ),
      observedGFS h = some L → g.current_gesture = some L →
      g.confirmed_text = confirmText L →
      (runModC (g, color) (ts.map fun t => (t, some h))).1.confirmed_text = confirmText L) ∧
    (∀ (g : GState) (color : Color) (h : HandObs) (L M : String) (now : ℚ),
      observedGFS h = some M → g.current_gesture = some L → M ≠ L →
      (moduleC g color (some h) now).1.current_gesture = some M ∧
      (moduleC g color (some h) now).1.gesture_start_time = now ∧
      (moduleC g color (some h) now).1.confirmed_text = g.confirmed_text) := by
  refine ⟨?_, ?_, ?_, ?_, ?_, ?_, ?_, ?_⟩
  · intro st h L ts hg hc hts
    exact OnlyGesture.run_hold st ts hg hc fun t ht => lt_asymm (hts t ht)
  · intro st h L now hg hc ht
    rw [OnlyGesture.step_confirm st now hg hc ht]
    exact ⟨rfl, hc⟩
  · intro st h L ts hg hc hcf
    exact (OnlyGesture.run_confirmed_sticky st ts hg hc hcf).2
  · intro st h L M now hg hc hM
    have hne : st.current_gesture ≠ some M := by
      rw [hc]
      exact fun he => hM (Option.some_inj.mp he).symm
    rw [OnlyGesture.step_switch st now hg hne]
    exact ⟨rfl, rfl, rfl⟩
  · intro g color h L ts hg hc hts
    exact runModC_hold g color ts hg hc fun t ht => lt_asymm (hts t ht)
  · intro g color h L now hg hc ht
    rw [moduleC_confirm g color now hg hc ht]
    exact ⟨rfl, hc⟩
  · intro g color h L ts hg hc hcf
    exact (runModC_confirmed_sticky (g, color) ts hg hc hcf).2
  · intro g color h L M now hg hc hM
    have hne : g.current_gesture ≠ some M := by
      rw [hc]
      exact fun he => hM (Option.some_inj.mp he).symm
    rw [moduleC_switch g color now hg hne]
    exact ⟨rfl, rfl, rfl⟩

/-- C1 witness: holding "Adjust Position" (observed from a concrete thumb
hand in the only_gesture variant) since time 0, the frames at 1 and 2
change nothing, and the frame at 4 confirms it. -/
theorem C1_witness :
    observedOG thumbHand = some "Adjust Position" ∧
    OnlyGesture.run ogHoldState ([1, 2].map fun t => (t, some thumbHand)) = ogHoldState ∧
    (OnlyGesture.step ogHoldState (some thumbHand) 4).1.confirmed_text = "Adjust Position" := by
  have hobs := observedOG_thumbHand
  refine ⟨hobs, ?_, ?_⟩
  · refine C1_gesture_hold_tracker.1 ogHoldState thumbHand "Adjust Position" [1, 2] hobs rfl ?_
    intro t ht
    rcases List.mem_cons.mp ht with rfl | ht
    · norm_num [ogHoldState, GESTURE_HOLD_TIME]
    · rcases List.mem_cons.mp ht with rfl | ht
      · norm_num [ogHoldState, GESTURE_HOLD_TIME]
      · exact absurd ht (List.not_mem_nil _)
  · exact (C1_gesture_hold_tracker.2.1 ogHoldState thumbHand "Adjust Position" 4 hobs rfl
      (by norm_num [ogHoldState, GESTURE_HOLD_TIME])).1

/-- C6: sticky confirmed status, for both variants.  A frame with no hand
or with an unrecognized gesture resets the held gesture to none but leaves
the confirmed text untouched; any run of such frames leaves the confirmed
text untouched; and the only step that changes the confirmed text is a
confirmation: same observed and held label with elapsed time past the hold
threshold. -/
theorem C6_sticky_status :
    (∀ (st : OnlyGesture.OGState) (now : ℚ),
      (OnlyGesture.step st none now).1.current_gesture = none ∧
      (OnlyGesture.step st none now).1.confirmed_text = st.confirmed_text) ∧
    (∀ (st : OnlyGesture.OGState) (h : HandObs) (now : ℚ), observedOG h = none →
      (OnlyGesture.step st (some h) now).1.current_gesture = none ∧
      (OnlyGesture.step st (some h) now).1.confirmed_text = st.confirmed_text) ∧
    (∀ (st : OnlyGesture.OGState) (frames : List (ℚ × Option HandObs)),
      (∀ fr ∈ frames, fr.2 = none ∨ ∃ h, fr.2 = some h ∧ observedOG h = none) →
      (OnlyGesture.run st frames).confirmed_text = st.confirmed_text) ∧
    (∀ (st : OnlyGesture.OGState) (hand : Option HandObs) (now : ℚ),
      (OnlyGesture.step st hand now).1.confirmed_text ≠ st.confirmed_text →
      ∃ h L, hand = some h ∧ observedOG h = some L ∧ st.current_gesture = some L ∧
        now - st.gesture_start_time > GESTURE_HOLD_TIME ∧
        (OnlyGesture.step st hand now).1.confirmed_text = L) ∧
    (∀ (g : GState) (color : Color) (now : ℚ),
      (moduleC g color none now).1.current_gesture = none ∧
      (moduleC g color none now).1.confirmed_text = g.confirmed_text) ∧
    (∀ (g : GState) (color : Color) (h : HandObs) (now : ℚ), observedGFS h = none →
      (moduleC g color (some h) now).1.current_gesture = none ∧
      (moduleC g color (some h) now).1.confirmed_text = g.confirmed_text) ∧
    (∀ (p : GState × Color) (frames : List (ℚ × Option HandObs)),
      (∀ fr ∈ frames, fr.2 = none ∨ ∃ h, fr.2 = some h ∧ observedGFS h = none) →
      (runModC p frames).1.confirmed_text = p.1.confirmed_text) ∧
    (∀ (g : GState) (color : Color) (hand : Option HandObs) (now : ℚ),
      (moduleC g color hand now).1.confirmed_text ≠ g.confirmed_text →
      ∃ h L, hand = some h ∧ observedGFS h = some L ∧ g.current_gesture = some L ∧
        now - g.gesture_start_time > GESTURE_HOLD_TIME ∧
        (moduleC g color hand now).1.confirmed_text = confirmText L) := by
  refine ⟨?_, ?_, ?_, ?_, ?_, ?_, ?_, ?_⟩
  · intro st now
    rw [OnlyGesture.step_noHand]
    exact ⟨rfl, rfl⟩
  · intro st h now hg
    rw [OnlyGesture.step_noneGesture st now hg]
    exact ⟨rfl, rfl⟩
  · intro st frames hframes
    exact (OnlyGesture.run_idle st frames hframes).1
  · intro st hand now hch
    exact OnlyGesture.step_confirmed_change st hand now hch
  · intro g color now
    rw [moduleC_noHand]
    exact ⟨rfl, rfl⟩
  · intro g color h now hg
    rw [moduleC_noneGesture g color now hg]
    exact ⟨rfl, rfl⟩
  · intro p frames hframes
    exact runModC_idle p frames hframes
  · intro g color hand now hch
    exact moduleC_confirmed_change g color hand now hch

/-- C6 witness: with "Adjust Position" confirmed, an unrecognized-gesture
frame and a no-hand frame reset the held gesture but keep the confirmed
status. -/
theorem C6_witness :
    observedOG fistHand = none ∧
    (OnlyGesture.step ogConfirmedState (some fistHand) 7).1.current_gesture = none ∧
    (OnlyGesture.step ogConfirmedState (some fistHand) 7).1.confirmed_text = "Adjust Position" ∧
    (OnlyGesture.run ogConfirmedState [(7, some fistHand), (8, none)]).confirmed_text =
      "Adjust Position" := by
  have hobs := observedOG_fistHand
  have h2 := C6_sticky_status.2.1 ogConfirmedState fistHand 7 hobs
  have h3 := C6_sticky_status.2.2.1 ogConfirmedState [(7, some fistHand), (8, none)] ?_
  · exact ⟨hobs, h2.1, h2.2, h3⟩
  · intro fr hfr
    rcases List.mem_cons.mp hfr with rfl | hfr
    · exact Or.inr ⟨fistHand, rfl, hobs⟩
    · rcases List.mem_cons.mp hfr with rfl | hfr
      · exact Or.inl rfl
      · exact absurd hfr (List.not_mem_nil _)

/-- C2: the `PresenceTracker` (module A of gesture_fall_storke.py).  The
absence start time is recorded on the first absent frame; with the start
recorded, a frame whose elapsed time strictly exceeds
`BODY_MISSING_THRESHOLD` makes `fall_alert_active` true, and an active
alert stays active on every later absent frame (level-triggered); at or
before the threshold the alert is not activated and the frame instead
reports the remaining time `threshold - elapsed` (rendered in whole
seconds); any frame with the body present clears both the alert and the
start time; and over any absent run from the clean state the start stays
at the first frame's time and the alert is active exactly when some
frame's elapsed time exceeds the threshold. -/
theorem C2_presence_tracker :
    (∀ (a : Bool) (t : ℚ), (moduleA none a t false).1.1 = some t) ∧
    (∀ (s : ℚ) (a : Bool) (t : ℚ), t - s > BODY_MISSING_THRESHOLD →
      (moduleA (some s) a t false).1 = (some s, true)) ∧
    (∀ (s t : ℚ), ¬ t - s > BODY_MISSING_THRESHOLD →
      (moduleA (some s) false t false).1 = (some s, false) ∧
      (moduleA (some s) false t false).2.2.2 =
        some ("Searching Body: " ++
          toString (truncInt (BODY_MISSING_THRESHOLD - (t - s))) ++ "s")) ∧
    (∀ (s t : ℚ), (moduleA (some s) true t false).1.2 = true) ∧
    (∀ (p : Option ℚ) (a : Bool) (t : ℚ), (moduleA p a t true).1 = (none, false)) ∧
    (∀ (t₀ : ℚ) (ts : List ℚ),
      runPresence (none, false) (t₀ :: ts) =
        (some t₀, ts.any fun t => decide (t - t₀ > BODY_MISSING_THRESHOLD))) := by
  refine ⟨?_, ?_, ?_, ?_, ?_, ?_⟩
  · intro a t
    rw [moduleA_absent_first]
  · intro s a t h
    rw [moduleA_absent_over a h]
  · intro s t h
    rw [moduleA_absent_under false h]
    exact ⟨rfl, rfl⟩
  · intro s t
    by_cases h : t - s > BODY_MISSING_THRESHOLD
    · rw [moduleA_absent_over true h]
    · rw [moduleA_absent_under true h]
  · intro p a t
    rw [moduleA_present]
  · intro t₀ ts
    have hstep : runPresence (none, false) (t₀ :: ts) =
        runPresence ((moduleA none false t₀ false).1) ts := rfl
    have hfirst : (moduleA none false t₀ false).1 = (some t₀, false) := by
      rw [moduleA_absent_first]
    rw [hstep, hfirst, runPresence_absent]
    simp

/-- C2 witness: at threshold 5, elapsed 6 activates the alert and elapsed
2 does not (remaining is reported instead). -/
theorem C2_witness :
    (moduleA (some (0 : ℚ)) false 6 false).1 = (some 0, true) ∧
    (moduleA (some (0 : ℚ)) false 2 false).1 = (some 0, false) :=
  ⟨C2_presence_tracker.2.1 0 false 6 (by norm_num [BODY_MISSING_THRESHOLD]),
    (C2_presence_tracker.2.2.1 0 2 (by norm_num [BODY_MISSING_THRESHOLD])).1⟩

/-- C8: while the same gesture is held and the elapsed duration does not
exceed `GESTURE_HOLD_TIME`, both variants draw the countdown text
`"Holding: " ++ ceil (hold_time - elapsed) ++ "s"`; in particular
`ceil (3 - 1) = 2`, so at elapsed 1.0 the countdown shows 2 seconds. -/
theorem C8_countdown_ceil :
    (∀ (g : GState) (color : Color) (h : HandObs) (L : String) (now : ℚ),
      observedGFS h = some L → g.current_gesture = some L →
      ¬ now - g.gesture_start_time > GESTURE_HOLD_TIME →
      (moduleC g color (some h) now).2.2 =
        "Holding: " ++ toString ⌈GESTURE_HOLD_TIME - (now - g.gesture_start_time)⌉ ++ "s") ∧
    (∀ (st : OnlyGesture.OGState) (h : HandObs) (L : String) (now : ℚ),
      observedOG h = some L → st.current_gesture = some L →
      ¬ now - st.gesture_start_time > GESTURE_HOLD_TIME →
      (OnlyGesture.step st (some h) now).2 =
        "Holding: " ++ toString ⌈GESTURE_HOLD_TIME - (now - st.gesture_start_time)⌉ ++ "s") ∧
    ⌈GESTURE_HOLD_TIME - ((1 : ℚ) - 0)⌉ = 2 := by
  refine ⟨?_, ?_, by norm_num [GESTURE_HOLD_TIME]⟩
  · intro g color h L now hg hc ht
    rw [moduleC_hold g color now hg hc ht]
  · intro st h L now hg hc ht
    rw [OnlyGesture.step_hold st now hg hc ht]

/-- C8 witness: the emergency pattern held since time 0, observed at
time 1, draws the countdown text "Holding: 2s". -/
theorem C8_witness :
    (moduleC ⟨some "THUMB_EMERGENCY", 0, "Monitoring Active"⟩ green
      (some thumbHand) 1).2.2 = "Holding: 2s" := by
  have hc := C8_countdown_ceil.1 ⟨some "THUMB_EMERGENCY", 0, "Monitoring Active"⟩ green
    thumbHand "THUMB_EMERGENCY" 1 observedGFS_thumbHand rfl
    (by norm_num [GESTURE_HOLD_TIME])
  rw [hc]
  show "Holding: " ++ toString ⌈GESTURE_HOLD_TIME - ((1 : ℚ) - 0)⌉ ++ "s" = "Holding: 2s"
  rw [C8_countdown_ceil.2.2]
  decide

/-- A clean persistent state of gesture_fall_storke.py in which the body
has been missing since time 0 and nothing has been confirmed. -/
def monitoringState : SysState :=
  ⟨some 0, false, none, 0, "Monitoring Active"⟩

/-- A face whose mouth asymmetry is 1, far above the 0.03 threshold. -/
def asymFace : ℕ → Landmark := fun i => if i = 61 then ⟨0, 1⟩ else ⟨0, 0⟩

/-- C4: when the fall condition (body absent past threshold) and the
stroke condition (asymmetry above threshold) hold on the same frame, the
banner text is the fall message and never the stroke message: the fall
alert has strictly higher banner priority. -/
theorem C4_fall_banner_priority
    (st : SysState) (now s : ℚ) (lm : ℕ → Landmark) (hand : Option HandObs)
    (hbms : st.body_missing_start = some s)
    (hfall : now - s > BODY_MISSING_THRESHOLD)
    (hstroke : get_mouth_asymmetry lm > FACE_ASYMMETRY_THRESHOLD) :
    (frameStep st now false (some lm) hand).2.top_alert_text =
      "FALL DETECTED / PATIENT MISSING" ∧
    (frameStep st now false (some lm) hand).2.top_alert_text ≠
      "POSSIBLE STROKE DETECTED" := by
  have hA := @moduleA_absent_over s now st.fall_alert_active hfall
  have hB : moduleB "FALL DETECTED / PATIENT MISSING" red (some lm) =
      ("FALL DETECTED / PATIENT MISSING", red) := by
    simp only [moduleB]
    rw [if_pos hstroke, if_neg (by decide : ¬ ("FALL DETECTED / PATIENT MISSING" = ""))]
  constructor
  · simp only [frameStep, hbms, hA, hB]
  · simp only [frameStep, hbms, hA, hB]
    decide

/-- C4 witness: body missing since 0 observed at 6 with a strongly
asymmetric face — the banner is the fall message. -/
theorem C4_witness :
    (frameStep monitoringState 6 false (some asymFace) none).2.top_alert_text =
      "FALL DETECTED / PATIENT MISSING" ∧
    (frameStep monitoringState 6 false (some asymFace) none).2.top_alert_text ≠
      "POSSIBLE STROKE DETECTED" :=
  C4_fall_banner_priority monitoringState 6 0 asymFace none rfl
    (by norm_num [BODY_MISSING_THRESHOLD])
    (by norm_num [get_mouth_asymmetry, asymFace, FACE_ASYMMETRY_THRESHOLD])

/-- C5 counterexample: on a frame where the fall alert fires while the
confirmed status is the non-emergency default "Monitoring Active", the
status line still shows "Status: Monitoring Active" but its color is red,
not green — so the status color is *not* independent of the banner state,
refuting the claimed "ALERT iff emergency" equivalence. -/
theorem C5_counterexample :
    (frameStep monitoringState 6 false none none).2.display_color = red ∧
    (frameStep monitoringState 6 false none none).2.top_alert_text =
      "FALL DETECTED / PATIENT MISSING" ∧
    (frameStep monitoringState 6 false none none).2.status_text =
      "Status: Monitoring Active" ∧
    strContains "Monitoring Active" "EMERGENCY" = false ∧
    red ≠ green := by
  have hfall : (6 : ℚ) - 0 > BODY_MISSING_THRESHOLD := by norm_num [BODY_MISSING_THRESHOLD]
  have hA := @moduleA_absent_over 0 6 false hfall
  have hstr : strContains "Monitoring Active" "EMERGENCY" = false := by decide
  refine ⟨?_, ?_, ?_, hstr, by decide⟩ <;>
    simp [frameStep, monitoringState, hA, moduleB, moduleC_noHand, hstr]

/-- C5 (amended): the status line always shows the current confirmed text
(default "Monitoring Active"), and its color is red whenever the confirmed
text contains "EMERGENCY"; otherwise it inherits the frame's status color,
which is *not* independent of the banners: a fall alert firing on a frame
with no gesture confirmation turns the status line red even for a
non-emergency confirmed text, and the color is green when no alert fires,
no hand is seen and the confirmed text is not the emergency variant. -/
theorem C5_status_line :
    (∀ (st : SysState) (now : ℚ) (pose : Bool) (face : Option (ℕ → Landmark))
        (hand : Option HandObs),
      (frameStep st now pose face hand).2.status_text =
        "Status: " ++ (frameStep st now pose face hand).1.confirmed_text) ∧
    (∀ (st : SysState) (now : ℚ) (pose : Bool) (face : Option (ℕ → Landmark))
        (hand : Option HandObs),
      strContains (frameStep st now pose face hand).1.confirmed_text "EMERGENCY" = true →
      (frameStep st now pose face hand).2.display_color = red) ∧
    (∀ (st : SysState) (now s : ℚ), st.body_missing_start = some s →
      now - s > BODY_MISSING_THRESHOLD →
      strContains st.confirmed_text "EMERGENCY" = false →
      (frameStep st now false none none).2.display_color = red ∧
      (frameStep st now false none none).1.confirmed_text = st.confirmed_text) ∧
    (∀ (st : SysState) (now : ℚ),
      strContains st.confirmed_text "EMERGENCY" = false →
      (frameStep st now true none none).2.display_color = green ∧
      (frameStep st now true none none).1.confirmed_text = st.confirmed_text) := by
  refine ⟨?_, ?_, ?_, ?_⟩
  · intro st now pose face hand
    rfl
  · intro st now pose face hand h
    simp only [frameStep] at h ⊢
    rw [h]
    simp
  · intro st now s hbms hfall hnotE
    have hA := @moduleA_absent_over s now st.fall_alert_active hfall
    constructor
    · simp [frameStep, hbms, hA, moduleB, moduleC_noHand]
    · simp [frameStep, hbms, hA, moduleB, moduleC_noHand]
  · intro st now hnotE
    have hA := moduleA_present st.body_missing_start st.fall_alert_active now
    constructor
    · simp [frameStep, hA, moduleB, moduleC_noHand, hnotE]
    · simp [frameStep, hA, moduleB, moduleC_noHand]

/-- C5 witness: with the body present and no alert, the non-emergency
status line is green; with the fall alert firing, the confirmed text
survives unchanged. -/
theorem C5_witness :
    (frameStep monitoringState 7 true none none).2.display_color = green ∧
    (frameStep monitoringState 6 false none none).1.confirmed_text = "Monitoring Active" := by
  have h4 := C5_status_line.2.2.2 monitoringState 7 (by decide)
  have h3 := C5_status_line.2.2.1 monitoringState 6 0 rfl
    (by norm_num [BODY_MISSING_THRESHOLD]) (by decide)
  exact ⟨h4.1, h3.2⟩

/-- C7 witness: the tables agree on the concrete vector `[1,1,0,0,0]`. -/
theorem C7_witness :
    (fingerVec true true false false false ≠ [1, 0, 0, 0, 0]) ∧
    (fingerVec true true false false false ≠ [1, 0, 1, 1, 1]) ∧
    GestureFallStroke.identify_gesture (fingerVec true true false false false) =
      OnlyGesture.identify_gesture (fingerVec true true false false false) :=
  ⟨by decide, by decide,
    C7_tables_agree_amended true true false false false (by decide) (by decide)⟩

end Gesture
